import Mathlib

/-!
# LazyAuth — verification of the authentication core

Shallow embedding of the OAuth2 login / signed-session-token core of the
`lazyauth` repository (`src/lazyauth/auth.py`, `src/lazyauth/models.py`,
`src/lazyauth/config.py`).

Modelling conventions:
* Wall-clock time is a `Nat` of UNIX seconds, passed explicitly to every
  operation that reads the clock (`datetime.now(timezone.utc)` in the code).
  python-jose truncates timestamps to whole seconds on both the encoding and
  the verifying side (`timegm(...utctimetuple())`), so integral seconds are
  faithful.
* The JWT produced by `jose.jwt.encode` is modelled as an `EncodedJwt`:
  the serialized claim set (a byte list) together with an HMAC signature over
  it.  The HMAC is modelled as an ideal MAC — a keyed function that is
  injective in the message for a fixed key — which is exactly the
  collision-resistance assumption the real HMAC-SHA256 construction is used
  for.  `jose.jwt.decode` checks the signature, then parses the payload, then
  validates the `exp` claim; python-jose raises `ExpiredSignatureError` only
  when `exp < now` (strict, zero leeway), and skips the check when `exp` is
  absent.
* The in-memory session store `sessions : Dict[str, tuple[str, datetime]]`
  is an association list with unique keys; `del sessions[state]` is
  `storeDelete`, membership is `storeLookup`.
* Randomness (`secrets.token_urlsafe(32)`) is passed in as a parameter.
* An HTTP 400/401/500 raised via `HTTPException` is modelled as a dedicated
  result constructor or as `none`/`Except.error`.
-/

namespace LazyAuth

/-! ## Data model (src/lazyauth/models.py) -/

/-- The JSON object returned by the provider's user-info endpoint, restricted
to the fields `auth_callback` reads.  `none` models an absent key (JSON `null`
is conflated with absence, which is faithful for every field the claims
touch). -/
structure Profile where
  id : Option String := none
  sub : Option String := none
  email : Option String := none
  name : Option String := none
  display_name : Option String := none
deriving Repr, DecidableEq

/-- `models.User`.  `provider_data` (the raw profile dict, default `{}`) is
modelled as `Option Profile`, `none` standing for the empty dict. -/
structure User where
  id : String
  email : Option String := none
  name : Option String := none
  provider : String
  provider_data : Option Profile := none
deriving Repr, DecidableEq

/-- `models.OAuth2Token` — the provider's token-endpoint response. -/
structure OAuth2Token where
  access_token : String
  token_type : String
  expires_in : Option Nat := none
  refresh_token : Option String := none
  scope : Option String := none
deriving Repr, DecidableEq

/-! ## Signed token service (auth.py: create_jwt_token / verify_jwt_token)

The claim set `{"sub", "email", "name", "provider", "exp"}` built by
`create_jwt_token` and read back by `verify_jwt_token` via `payload.get`. -/

/-- A decoded JWT claim set.  Each field is `none` when the claim is absent. -/
structure Payload where
  sub : Option String := none
  email : Option String := none
  name : Option String := none
  provider : Option String := none
  exp : Option Nat := none
deriving Repr, DecidableEq

/-- Length-prefixed byte encoding of an optional string claim. -/
def encOptStr : Option String → List Nat
  | none => [0]
  | some s => 1 :: s.length :: s.data.map Char.toNat

/-- Decoder for `encOptStr`; returns the decoded claim and the remaining
bytes, or `none` on malformed input. -/
def decOptStr : List Nat → Option (Option String × List Nat)
  | 0 :: rest => some (none, rest)
  | 1 :: n :: rest =>
    if n ≤ rest.length then
      some (some (String.mk ((rest.take n).map Char.ofNat)), rest.drop n)
    else none
  | _ => none

/-- Byte encoding of an optional numeric claim (`exp`). -/
def encOptNat : Option Nat → List Nat
  | none => [0]
  | some n => [1, n]

/-- Decoder for `encOptNat`. -/
def decOptNat : List Nat → Option (Option Nat × List Nat)
  | 0 :: rest => some (none, rest)
  | 1 :: n :: rest => some (some n, rest)
  | _ => none

/-- Serialization of the claim set — the model of the base64url-encoded JSON
payload segment of the JWT. -/
def serializePayload (p : Payload) : List Nat :=
  encOptStr p.sub ++ encOptStr p.email ++ encOptStr p.name ++
    encOptStr p.provider ++ encOptNat p.exp

/-- Parse a payload segment back into a claim set; `none` models a payload
that is not well-formed JSON (jose raises `JWTError` there). -/
def deserializePayload (bs : List Nat) : Option Payload := do
  let (sub, r1) ← decOptStr bs
  let (em, r2) ← decOptStr r1
  let (nm, r3) ← decOptStr r2
  let (pr, r4) ← decOptStr r3
  let (ex, r5) ← decOptNat r4
  if r5 = [] then
    some { sub := sub, email := em, name := nm, provider := pr, exp := ex }
  else none

/-- The HMAC signature over the encoded payload, keyed by the server secret
(`settings.jwt_secret_key`, algorithm `settings.jwt_algorithm`).  Modelled as
an ideal MAC: for a fixed key it is injective in the message, which is the
collision-resistance property assumed of HMAC-SHA256. -/
def hmacSign (secret : String) (message : List Nat) : List Nat :=
  secret.data.map Char.toNat ++ message

/-- The encoded JWT: payload segment plus signature segment (the constant
header segment is omitted — the single configured algorithm is baked into
`hmacSign`). -/
structure EncodedJwt where
  payloadBytes : List Nat
  sig : List Nat
deriving Repr, DecidableEq

/-- `jose.jwt.encode`: serialize the claim set and sign it. -/
def jwtEncode (secret : String) (p : Payload) : EncodedJwt :=
  { payloadBytes := serializePayload p
    sig := hmacSign secret (serializePayload p) }

/-- `jose.jwt.decode` at time `now`: verify the signature, parse the payload,
then validate `exp` (python-jose `_validate_exp`: raise only when
`exp < now`, no check when `exp` is absent).  `none` models `JWTError`. -/
def jwtDecode (secret : String) (now : Nat) (tok : EncodedJwt) : Option Payload :=
  if tok.sig = hmacSign secret tok.payloadBytes then
    match deserializePayload tok.payloadBytes with
    | none => none
    | some p =>
      match p.exp with
      | some e => if e < now then none else some p
      | none => some p
  else none

/-- `models.Token` — the response wrapper around the encoded JWT. -/
structure Token where
  access_token : EncodedJwt
  token_type : String := "bearer"
  expires_in : Option Nat := none
deriving Repr, DecidableEq

/-- `auth.create_jwt_token`, with the clock and the configuration
(`jwt_secret_key`, `jwt_expiration_minutes`) passed explicitly. -/
def create_jwt_token (secret : String) (expirationMinutes : Nat) (now : Nat)
    (user : User) : Token :=
  let payload : Payload :=
    { sub := some user.id
      email := user.email
      name := user.name
      provider := some user.provider
      exp := some (now + expirationMinutes * 60) }
  { access_token := jwtEncode secret payload
    token_type := "bearer"
    expires_in := some (expirationMinutes * 60) }

/-- `auth.verify_jwt_token`: decode, require the `sub` claim, rebuild a
`User` (provider defaults to `"unknown"`, `provider_data` to the empty
dict). -/
def verify_jwt_token (secret : String) (now : Nat) (tok : EncodedJwt) :
    Option User :=
  match jwtDecode secret now tok with
  | none => none
  | some payload =>
    match payload.sub with
    | none => none
    | some uid =>
      some { id := uid
             email := payload.email
             name := payload.name
             provider := payload.provider.getD "unknown"
             provider_data := none }

/-! ## State store (auth.py: `sessions`, cleanup_expired_sessions)

`sessions : Dict[str, tuple[str, datetime]]` maps an anti-CSRF state nonce
to a `(status, timestamp)` pair; the status written is always `"pending"`. -/

/-- The in-memory session store, as an association list with unique keys
(a Python dict). -/
abbrev SessionStore := List (String × (String × Nat))

/-- Dict membership / lookup: `sessions[state]`. -/
def storeLookup (state : String) : SessionStore → Option (String × Nat)
  | [] => none
  | (k, v) :: rest => if k = state then some v else storeLookup state rest

/-- `del sessions[state]` (removes every binding of the key; identical to the
single-entry delete on a dict, whose keys are unique). -/
def storeDelete (state : String) : SessionStore → SessionStore
  | [] => []
  | (k, v) :: rest =>
    if k = state then storeDelete state rest else (k, v) :: storeDelete state rest

/-- `auth.cleanup_expired_sessions`: drop every entry strictly older than
600 seconds (`(current_time - timestamp).total_seconds() > 600`). -/
def cleanup_expired_sessions (now : Nat) (sessions : SessionStore) : SessionStore :=
  sessions.filter (fun e => decide (now - e.2.2 ≤ 600))

/-- The result of `GET /auth/login`: the fresh state nonce and the updated
store (the authorization URL is pure string construction from configuration
and is not modelled). -/
structure LoginResult where
  state : String
  sessions : SessionStore
deriving Repr, DecidableEq

/-- `auth.login`: sweep expired sessions, generate a state nonce
(`secrets.token_urlsafe(32)`, passed in as `freshState`), record it as
`("pending", now)`.  Dict assignment overwrites any previous binding of the
same key. -/
def login (now : Nat) (freshState : String) (sessions : SessionStore) :
    LoginResult :=
  let cleaned := cleanup_expired_sessions now sessions
  { state := freshState
    sessions := (freshState, ("pending", now)) :: storeDelete freshState cleaned }

/-- The State Store `consume` operation as `auth_callback` performs it
(lines 138–142): succeed and delete when the state is present, fail
otherwise.  No timestamp check is made here. -/
def consumeState (state : String) (sessions : SessionStore) :
    Option SessionStore :=
  match storeLookup state sessions with
  | some _ => some (storeDelete state sessions)
  | none => none

/-! ## Identity exchange and callback orchestration (auth.py: auth_callback) -/

/-- The outbound HTTP collaborator: the provider's token endpoint
(`POST oauth2_token_url`, then `raise_for_status` and pydantic parse) and
user-info endpoint (`GET oauth2_user_info_url`).  `Except.error` covers a
transport error or a non-2xx response (`httpx.HTTPError`). -/
structure ProviderStub where
  exchange : String → Except String OAuth2Token
  fetchProfile : String → Except String Profile

/-- Outcome of `GET /auth/callback`. -/
inductive CallbackResult where
  /-- 200: token issued, cookie set, store updated. -/
  | success (user : User) (token : Token) (sessions : SessionStore)
  /-- 400 `"Invalid state parameter"`. -/
  | invalidState (sessions : SessionStore)
  /-- 500 `"Failed to authenticate with provider: ..."`. -/
  | exchangeFailed (detail : String) (sessions : SessionStore)
deriving Repr, DecidableEq

/-- Identity normalization in `auth_callback` (lines 176–182):
`id = user_data.get("id") or user_data.get("sub", "unknown")`,
`name = user_data.get("name") or user_data.get("display_name")`.
Python `or` falls through on a falsy left operand (`None` or `""`). -/
def userFromProfile (userData : Profile) : User :=
  { id := match userData.id with
          | some s => if s = "" then userData.sub.getD "unknown" else s
          | none => userData.sub.getD "unknown"
    email := userData.email
    name := match userData.name with
            | some s => if s = "" then userData.display_name else some s
            | none => userData.display_name
    provider := "oauth2"
    provider_data := some userData }

/-- `auth.auth_callback`: check the state nonce (membership only), delete it,
exchange the code, fetch the profile, normalize, and issue the session
token. -/
def auth_callback (secret : String) (expirationMinutes : Nat)
    (provider : ProviderStub) (now : Nat) (sessions : SessionStore)
    (code state : String) : CallbackResult :=
  match storeLookup state sessions with
  | none => .invalidState sessions
  | some _ =>
    let sessions' := storeDelete state sessions
    match provider.exchange code with
    | .error e => .exchangeFailed ("Failed to authenticate with provider: " ++ e) sessions'
    | .ok oauthToken =>
      match provider.fetchProfile oauthToken.access_token with
      | .error e => .exchangeFailed ("Failed to authenticate with provider: " ++ e) sessions'
      | .ok userData =>
        let user := userFromProfile userData
        let token := create_jwt_token secret expirationMinutes now user
        .success user token sessions'

/-! ## Request authentication (auth.py: get_current_user / auth_status) -/

/-- The `Authorization` header value.  `bearer tok` is a value of the form
`"Bearer <token>"` (with `tok` the token after the prefix is stripped);
`other` is any value not starting with `"Bearer "`. -/
inductive AuthHeader where
  | bearer (tok : EncodedJwt)
  | other (value : String)
deriving Repr

/-- The credentials carried by a request.  `cookie = none` covers both an
absent `access_token` cookie and an empty one (`if token:` is falsy on
`""`). -/
structure RequestCreds where
  authHeader : Option AuthHeader := none
  cookie : Option EncodedJwt := none

/-- `auth.get_current_user`: try the `Authorization: Bearer` header, then the
`access_token` cookie; `none` models the 401 `HTTPException`. -/
def get_current_user (secret : String) (now : Nat) (req : RequestCreds) :
    Option User :=
  let headerUser : Option User :=
    match req.authHeader with
    | some (.bearer tok) => verify_jwt_token secret now tok
    | _ => none
  match headerUser with
  | some u => some u
  | none =>
    match req.cookie with
    | some tok => verify_jwt_token secret now tok
    | none => none

/-- Body of the 200 response of `GET /auth/status`. -/
structure StatusResponse where
  authenticated : Bool
  user : Option User
deriving Repr, DecidableEq

/-- `auth.auth_status`: call `get_current_user`, catch the `HTTPException`,
always answer 200.  Totality is expressed by the plain (non-`Option`) result
type. -/
def auth_status (secret : String) (now : Nat) (req : RequestCreds) :
    StatusResponse :=
  match get_current_user secret now req with
  | some u => { authenticated := true, user := some u }
  | none => { authenticated := false, user := none }

/-! ## Helper lemmas -/

/-- Decoding inverts the optional-string encoding, leaving trailing bytes. -/
theorem decOptStr_encOptStr (o : Option String) (rest : List Nat) :
    decOptStr (encOptStr o ++ rest) = some (o, rest) := by
  cases o with
  | none => rfl
  | some s =>
    show decOptStr (1 :: s.length :: (s.data.map Char.toNat ++ rest)) = _
    have h1 : (s.data.map Char.toNat).length = s.length := by
      rw [List.length_map]; rfl
    rw [decOptStr, if_pos (by rw [List.length_append, h1]; omega)]
    rw [← h1, List.take_left, List.drop_left, List.map_map]
    have h2 : ∀ cs : List Char, cs.map (Char.ofNat ∘ Char.toNat) = cs := by
      intro cs
      induction cs with
      | nil => rfl
      | cons c cs ih => rw [List.map_cons, Function.comp_apply, Char.ofNat_toNat, ih]
    rw [h2]

/-- Decoding inverts the optional-number encoding. -/
theorem decOptNat_encOptNat (o : Option Nat) :
    decOptNat (encOptNat o) = some (o, []) := by
  cases o <;> rfl

/-- Parsing inverts serialization of the claim set. -/
theorem deserialize_serialize (p : Payload) :
    deserializePayload (serializePayload p) = some p := by
  simp [serializePayload, List.append_assoc, deserializePayload,
    decOptStr_encOptStr, decOptNat_encOptNat]

/-- The modelled MAC is injective in the message for a fixed key. -/
theorem hmacSign_inj (secret : String) (m1 m2 : List Nat)
    (h : hmacSign secret m1 = hmacSign secret m2) : m1 = m2 :=
  List.append_cancel_left h

/-- After deleting a key, looking it up fails. -/
theorem storeLookup_storeDelete (state : String) (s : SessionStore) :
    storeLookup state (storeDelete state s) = none := by
  induction s with
  | nil => rfl
  | cons e rest ih =>
    obtain ⟨k, v⟩ := e
    by_cases hk : k = state
    · simp [storeDelete, hk, ih]
    · simp [storeDelete, storeLookup, hk, ih]

/-- After the sweep, no key all of whose entries are expired is found. -/
theorem storeLookup_cleanup_none (now : Nat) (state : String) (s : SessionStore)
    (h : ∀ e ∈ s, e.1 = state → 600 < now - e.2.2) :
    storeLookup state (cleanup_expired_sessions now s) = none := by
  induction s with
  | nil => rfl
  | cons e rest ih =>
    obtain ⟨k, v⟩ := e
    have hrest : storeLookup state (cleanup_expired_sessions now rest) = none :=
      ih fun x hx hkx => h x (List.mem_cons_of_mem _ hx) hkx
    have hhead : k = state → 600 < now - v.2 :=
      h (k, v) (List.mem_cons_self _ _)
    simp only [cleanup_expired_sessions] at hrest ⊢
    rw [List.filter_cons]
    by_cases hage : now - v.2 ≤ 600
    · have hk : ¬ (k = state) := fun hkk => by have := hhead hkk; omega
      rw [if_pos (by simpa using hage)]
      simpa [storeLookup, hk] using hrest
    · rw [if_neg (by simpa using hage)]
      exact hrest

/-- Looking up a key at the head of the store. -/
theorem storeLookup_cons_self (k : String) (v : String × Nat) (l : SessionStore) :
    storeLookup k ((k, v) :: l) = some v := by
  simp [storeLookup]

/-- Evaluation of `verify_jwt_token` on a token freshly produced by
`create_jwt_token` with the same secret, at any verification time not
strictly past the `exp` claim (python-jose accepts while `¬ exp < now`). -/
theorem verify_create_eval (secret : String) (expMin tIssue tVerify : Nat)
    (user : User) (h : ¬ (tIssue + expMin * 60 < tVerify)) :
    verify_jwt_token secret tVerify
      (create_jwt_token secret expMin tIssue user).access_token =
      some { id := user.id, email := user.email, name := user.name,
             provider := user.provider, provider_data := none } := by
  unfold verify_jwt_token jwtDecode create_jwt_token jwtEncode
  simp only [if_pos rfl, deserialize_serialize]
  rw [if_neg h]
  simp

/-! ## Fixtures for witnesses and counterexamples -/

/-- A sample authenticated user. -/
def userEx : User :=
  { id := "u1", email := some "a@b.com", name := some "Alice",
    provider := "oauth2", provider_data := none }

/-- A sample provider profile response. -/
def profileEx : Profile :=
  { id := some "u1", sub := none, email := some "a@b.com",
    name := some "Alice", display_name := none }

/-- A provider collaborator whose calls all fail with a transport error. -/
def provErrEx : ProviderStub :=
  { exchange := fun _ => .error ("boom")
    fetchProfile := fun _ => .error ("boom") }

/-- A provider collaborator that answers both calls successfully. -/
def provOkEx : ProviderStub :=
  { exchange := fun _ => .ok { access_token := "tok", token_type := "bearer" }
    fetchProfile := fun _ => .ok profileEx }

/-! ## Claims -/

/-- C1 (amended): `auth_callback` checks only membership of the state nonce
in the store — it never reads the timestamp — so consuming an expired nonce
that is still present succeeds (see the counterexample).  The 10-minute
expiry is enforced solely by `cleanup_expired_sessions`, which runs at the
start of each `login`: once the sweep has run at a time at which the nonce's
age exceeds 600 seconds, consuming it fails. -/
theorem consume_after_sweep_rejects_expired (now : Nat) (state : String)
    (s : SessionStore) (h : ∀ e ∈ s, e.1 = state → 600 < now - e.2.2) :
    consumeState state (cleanup_expired_sessions now s) = none := by
  unfold consumeState
  rw [storeLookup_cleanup_none now state s h]

/-- C1 witness: a nonce created at time 0 and swept at time 700. -/
theorem consume_after_sweep_rejects_expired_witness :
    (∀ e ∈ [("st", ("pending", 0))], e.1 = "st" → 600 < 700 - e.2.2) ∧
    consumeState "st"
      (cleanup_expired_sessions 700 [("st", ("pending", (0 : Nat)))]) = none :=
  ⟨by decide, consume_after_sweep_rejects_expired 700 "st" _ (by decide)⟩

/-- C1 counterexample: a nonce 700 seconds old (age > 600, never consumed)
that is still in the store is consumed successfully by the callback — the
exchange proceeds and a session token is issued, refuting the claim that
`consume` atomically checks un-expired status. -/
theorem expired_nonce_still_consumed :
    600 < 700 - 0 ∧
    consumeState "st" [("st", ("pending", 0))] = some [] ∧
    ∃ u t s', auth_callback "k" 30 provOkEx 700 [("st", ("pending", 0))]
      "c" "st" = .success u t s' := by
  refine ⟨by decide, by decide, ?_⟩
  exact ⟨_, _, _, rfl⟩

/-- C2: a nonce freshly recorded by `login` is consumed successfully on
first use, the consumption removes it from the store, and any repeated
consumption of the same nonce fails. -/
theorem fresh_nonce_single_use (now : Nat) (freshState : String)
    (s : SessionStore) :
    ∃ s2, consumeState freshState (login now freshState s).sessions = some s2 ∧
      storeLookup freshState s2 = none ∧
      consumeState freshState s2 = none := by
  refine ⟨storeDelete freshState (login now freshState s).sessions, ?_, ?_, ?_⟩
  · unfold consumeState login
    rw [storeLookup_cons_self]
  · exact storeLookup_storeDelete ..
  · unfold consumeState
    rw [storeLookup_storeDelete]

/-- C3: verifying a token issued for an identity — with the same secret,
before the TTL elapses — succeeds and returns a user whose `id` (subjectId)
equals the original's; `provider_data` (rawProfile) does not round-trip
(the verified user carries the empty dict). -/
theorem verify_issue_roundtrip (secret : String) (expMin tIssue tVerify : Nat)
    (user : User) (h : tVerify < tIssue + expMin * 60) :
    verify_jwt_token secret tVerify
      (create_jwt_token secret expMin tIssue user).access_token =
      some { id := user.id, email := user.email, name := user.name,
             provider := user.provider, provider_data := none } :=
  verify_create_eval secret expMin tIssue tVerify user (by omega)

/-- C3 witness: issue at time 0 with a 30-minute TTL, verify at time 10. -/
theorem verify_issue_roundtrip_witness :
    (10 : Nat) < 0 + 30 * 60 ∧
    verify_jwt_token "k" 10 (create_jwt_token "k" 30 0 userEx).access_token =
      some { id := "u1", email := some "a@b.com", name := some "Alice",
             provider := "oauth2", provider_data := none } :=
  ⟨by decide, verify_issue_roundtrip "k" 30 0 10 userEx (by decide)⟩

/-- C4 (amended): verification fails exactly when the signature does not
match, the payload is malformed, the `sub` claim is absent, or the current
time is STRICTLY greater than the `exp` claim (python-jose raises
`ExpiredSignatureError` only when `exp < now`); a token verified at exactly
its expiry time still verifies (see the counterexample). -/
theorem verify_failure_characterization (secret : String) (now : Nat)
    (tok : EncodedJwt) :
    verify_jwt_token secret now tok = none ↔
      tok.sig ≠ hmacSign secret tok.payloadBytes ∨
      deserializePayload tok.payloadBytes = none ∨
      (∃ p, deserializePayload tok.payloadBytes = some p ∧ p.sub = none) ∨
      (∃ p e, deserializePayload tok.payloadBytes = some p ∧
        p.exp = some e ∧ e < now) := by
  unfold verify_jwt_token jwtDecode
  by_cases hsig : tok.sig = hmacSign secret tok.payloadBytes
  · rw [if_pos hsig]
    cases hdes : deserializePayload tok.payloadBytes with
    | none => simp [hsig, hdes]
    | some p =>
      cases hexp : p.exp with
      | none =>
        cases hsub : p.sub with
        | none => simp [hsig, hdes, hexp, hsub]
        | some uid => simp [hsig, hdes, hexp, hsub]
      | some e =>
        by_cases he : e < now
        · simp [hsig, hdes, hexp, he]
        · cases hsub : p.sub with
          | none => simp [hsig, hdes, hexp, he, hsub]
          | some uid => simp [hsig, hdes, hexp, he, hsub]
  · simp [hsig]

/-- C4 counterexample: a well-formed token verified exactly at its `exp`
time (now = exp = 100 ≥ exp) is accepted, refuting rejection at
`now ≥ exp`. -/
theorem verify_at_exact_expiry_accepted :
    (100 : Nat) ≥ 40 + 1 * 60 ∧
    (verify_jwt_token "k" 100
      (create_jwt_token "k" 1 40 userEx).access_token).isSome = true := by
  refine ⟨by decide, ?_⟩
  rw [verify_create_eval "k" 1 40 100 userEx (by decide)]
  rfl

/-- A token whose payload bytes differ at position `i` from the bytes the
signature was computed over fails verification: the ideal MAC is injective
in the message. -/
theorem altered_bytes_rejected_gen (secret : String) (now : Nat)
    (pb : List Nat) (i b : Nat) (hi : i < pb.length)
    (hb : b ≠ pb.get ⟨i, hi⟩) :
    verify_jwt_token secret now
      { payloadBytes := pb.set i b, sig := hmacSign secret pb } = none := by
  have hne : pb.set i b ≠ pb := by
    intro heq
    have h1 : (pb.set i b)[i]? = some b := List.getElem?_set_eq_of_lt b hi
    rw [heq, List.getElem?_eq_getElem hi] at h1
    exact hb (by simpa [List.get_eq_getElem] using (Option.some_injective _ h1).symm)
  have hcond : hmacSign secret pb ≠ hmacSign secret (pb.set i b) := by
    intro hh
    exact hne (hmacSign_inj secret _ _ hh.symm)
  unfold verify_jwt_token jwtDecode
  simp [hcond]

/-- C5: altering any single byte of the encoded payload of an issued token
invalidates it: the signature is bound to the whole serialized claim set, so
verification fails on the mutated token. -/
theorem altered_token_rejected (secret : String) (expMin tIssue now : Nat)
    (user : User) (i b : Nat)
    (hi : i <
      (create_jwt_token secret expMin tIssue user).access_token.payloadBytes.length)
    (hb : b ≠
      (create_jwt_token secret expMin tIssue user).access_token.payloadBytes.get
        ⟨i, hi⟩) :
    verify_jwt_token secret now
      { payloadBytes :=
          (create_jwt_token secret expMin tIssue user).access_token.payloadBytes.set
            i b
        sig := (create_jwt_token secret expMin tIssue user).access_token.sig } =
      none :=
  altered_bytes_rejected_gen secret now
    (create_jwt_token secret expMin tIssue user).access_token.payloadBytes i b hi hb

/-- C5 witness: flip byte 0 of the payload of a concrete issued token. -/
theorem altered_token_rejected_witness :
    0 < (create_jwt_token "k" 30 0 userEx).access_token.payloadBytes.length ∧
    verify_jwt_token "k" 5
      { payloadBytes :=
          (create_jwt_token "k" 30 0 userEx).access_token.payloadBytes.set 0 7
        sig := (create_jwt_token "k" 30 0 userEx).access_token.sig } = none :=
  ⟨by decide, altered_token_rejected "k" 30 0 5 userEx 0 7 (by decide) (by decide)⟩

/-- C6: a callback whose state is not in the store fails with the 400
"Invalid state parameter" response; the result is the same for every
provider collaborator (so no exchange call is attempted) and the store is
returned unchanged. -/
theorem unknown_state_rejected (secret : String) (expMin : Nat)
    (provider : ProviderStub) (now : Nat) (sessions : SessionStore)
    (code state : String) (h : storeLookup state sessions = none) :
    auth_callback secret expMin provider now sessions code state =
      .invalidState sessions := by
  unfold auth_callback
  rw [h]

/-- C6 witness: unknown state on the empty store. -/
theorem unknown_state_rejected_witness :
    storeLookup "x" ([] : SessionStore) = none ∧
    auth_callback "k" 30 provErrEx 0 [] "c" "x" = .invalidState [] :=
  ⟨rfl, unknown_state_rejected "k" 30 provErrEx 0 [] "c" "x" rfl⟩

/-- C7: when the provider exchange or the profile fetch fails after the
state nonce was found, the callback fails with the 500 response, no session
token is issued (the result is the `exchangeFailed` constructor, which
carries none), and the consumed nonce is not restored: it is absent from the
resulting store. -/
theorem exchange_failure_single_use (secret : String) (expMin : Nat)
    (provider : ProviderStub) (now : Nat) (sessions : SessionStore)
    (code state : String) (entry : String × Nat) (msg : String)
    (hmem : storeLookup state sessions = some entry)
    (hfail : provider.exchange code = .error msg ∨
      ∃ t, provider.exchange code = .ok t ∧
        provider.fetchProfile t.access_token = .error msg) :
    auth_callback secret expMin provider now sessions code state =
      .exchangeFailed ("Failed to authenticate with provider: " ++ msg)
        (storeDelete state sessions) ∧
    storeLookup state (storeDelete state sessions) = none := by
  refine ⟨?_, storeLookup_storeDelete ..⟩
  unfold auth_callback
  rw [hmem]
  rcases hfail with hex | ⟨t, hex, hprof⟩
  · rw [hex]
  · simp [hex, hprof]

/-- C7 witness: a stored nonce with a provider whose exchange call fails. -/
theorem exchange_failure_single_use_witness :
    storeLookup "s" [("s", ("pending", 0))] = some ("pending", 0) ∧
    auth_callback "k" 30 provErrEx 9 [("s", ("pending", 0))] "c" "s" =
      .exchangeFailed ("Failed to authenticate with provider: " ++ "boom") [] ∧
    storeLookup "s" (storeDelete "s" [("s", ("pending", 0))]) = none := by
  refine ⟨by decide, ?_⟩
  have h := exchange_failure_single_use "k" 30 provErrEx 9
    [("s", ("pending", 0))] "c" "s" ("pending", 0) "boom" (by decide)
    (Or.inl rfl)
  exact ⟨h.1, h.2⟩

/-- C8: the status endpoint is total — it is a plain function into
`StatusResponse` (the 200 body), never an error — and for every request its
`user` field is exactly the result of `get_current_user` while
`authenticated` mirrors its success; in particular an absent or invalid
credential yields `authenticated = false` with `user = none`. -/
theorem auth_status_never_errors (secret : String) (now : Nat)
    (req : RequestCreds) :
    (auth_status secret now req).user = get_current_user secret now req ∧
    (auth_status secret now req).authenticated =
      (get_current_user secret now req).isSome ∧
    ((auth_status secret now req).authenticated = false ↔
      (auth_status secret now req).user = none) := by
  cases h : get_current_user secret now req <;> simp [auth_status, h]

/-- C9: in the callback's identity normalization the subject is taken from
the profile's `id` only when it is truthy (a present empty-string `id` falls
through to `sub`), and when both are absent it defaults to `"unknown"` —
`userFromProfile` is total, so callback handling never fails for lack of a
subject identifier. -/
theorem subject_normalization (d : Profile) :
    (∀ s, d.id = some s → s ≠ "" → (userFromProfile d).id = s) ∧
    ((d.id = none ∨ d.id = some "") →
      (userFromProfile d).id = d.sub.getD "unknown") ∧
    ((d.id = none ∨ d.id = some "") → d.sub = none →
      (userFromProfile d).id = "unknown") := by
  refine ⟨?_, ?_, ?_⟩
  · intro s hs hne
    simp [userFromProfile, hs, hne]
  · rintro (hid | hid) <;> simp [userFromProfile, hid]
  · rintro (hid | hid) hsub <;> simp [userFromProfile, hid, hsub]

/-- C9 witness: a profile with neither `id` nor `sub` yields the subject
`"unknown"`, and the callback can issue a token for it. -/
theorem subject_normalization_witness :
    (({ id := none, sub := none } : Profile).id = none ∨
      ({ id := none, sub := none } : Profile).id = some "") ∧
    (userFromProfile { id := none, sub := none }).id = "unknown" :=
  ⟨Or.inl rfl, (subject_normalization _).2.2 (Or.inl rfl) rfl⟩

/-- C10: `get_current_user` consults the `Authorization` header first: a
verifying bearer token wins regardless of the cookie; a bearer token that
fails verification does not reject the request — the cookie is still tried
and decides the outcome; 401 (`none`) results exactly when neither
credential verifies. -/
theorem header_before_cookie (secret : String) (now : Nat)
    (hTok cTok : EncodedJwt) :
    (∀ u, verify_jwt_token secret now hTok = some u →
      get_current_user secret now ⟨some (.bearer hTok), some cTok⟩ = some u) ∧
    (verify_jwt_token secret now hTok = none →
      get_current_user secret now ⟨some (.bearer hTok), some cTok⟩ =
        verify_jwt_token secret now cTok) ∧
    (get_current_user secret now ⟨some (.bearer hTok), some cTok⟩ = none ↔
      verify_jwt_token secret now hTok = none ∧
      verify_jwt_token secret now cTok = none) := by
  refine ⟨?_, ?_, ?_⟩
  · intro u hu
    simp [get_current_user, hu]
  · intro h0
    simp [get_current_user, h0]
  · cases hh : verify_jwt_token secret now hTok <;>
      cases hc : verify_jwt_token secret now cTok <;>
      simp [get_current_user, hh, hc]

/-- C10 witness: a malformed bearer token (empty segments) fails
verification, and the request outcome is then decided by the cookie
token. -/
theorem header_before_cookie_witness :
    verify_jwt_token "k" 0 ⟨[], []⟩ = none ∧
    get_current_user "k" 0 ⟨some (.bearer ⟨[], []⟩), some ⟨[], []⟩⟩ =
      verify_jwt_token "k" 0 ⟨[], []⟩ :=
  ⟨by decide, (header_before_cookie "k" 0 ⟨[], []⟩ ⟨[], []⟩).2.1 (by decide)⟩

end LazyAuth
